import Mathlib

/-!
Shallow embedding of scripts/gastown-webhook.py (the single source file of
the gastown repository): a small HTTP webhook server with two routes,
GET /health and POST /sync.  The Python handler relies on the standard
library helpers urllib.parse.urlparse and urllib.parse.parse_qs, which are
modelled here from their documented CPython behaviour; the handler itself
(WebhookHandler.do_POST, WebhookHandler.do_GET, the PORT computation) is
translated line by line from the source.  The one effect of the handler,
spawning the sync subprocess, is made explicit: each handler call returns
the HTTP response together with the list of processes it spawned, and the
outcome of subprocess.run (completion with a return code, or a raised
exception such as TimeoutExpired) is an input to the handler.
-/

namespace GastownWebhook

/-! ## List and string utilities used by the stdlib models -/

/-- Splits a character list at the first occurrence of c, dropping that
occurrence; none when c does not occur.  Mirrors str.split(c, 1) and
str.find(c) based slicing in the CPython helpers. -/
def breakAtFirst (c : Char) : List Char → Option (List Char × List Char)
  | [] => none
  | x :: xs =>
    if x = c then some ([], xs)
    else
      match breakAtFirst c xs with
      | none => none
      | some (pre, post) => some (x :: pre, post)

/-- Splits a character list at the last occurrence of c, dropping that
occurrence; none when c does not occur.  Mirrors str.rfind(c). -/
def breakAtLast (c : Char) : List Char → Option (List Char × List Char)
  | [] => none
  | x :: xs =>
    match breakAtLast c xs with
    | some (pre, post) => some (x :: pre, post)
    | none => if x = c then some ([], xs) else none

/-- Helper for splitAll, carrying the current field in reverse. -/
def splitAllAux (c : Char) : List Char → List Char → List (List Char)
  | [], acc => [acc.reverse]
  | x :: xs, acc =>
    if x = c then acc.reverse :: splitAllAux c xs []
    else splitAllAux c xs (x :: acc)

/-- Splits a character list on every occurrence of c.  Mirrors Python
str.split(c): the empty string yields one empty field. -/
def splitAll (c : Char) (s : List Char) : List (List Char) :=
  splitAllAux c s []

/-- ASCII lowercasing of a character list, as str.lower() on scheme text. -/
def lowerStr (s : List Char) : List Char :=
  s.map Char.toLower

/-! ## Model of urllib.parse.urlparse (CPython urllib/parse.py)

The POST handler calls urlparse(self.path) and reads the path and query
components.  The model follows CPython urlsplit plus the params split of
urlparse: unsafe bytes (tab, CR, LF) are removed, then scheme, netloc,
fragment, query and params are split off in that order. -/

/-- Result record of urlparse, with the six components of CPython
ParseResult in order. -/
structure ParseResult where
  scheme : String
  netloc : String
  path : String
  params : String
  query : String
  fragment : String
deriving DecidableEq

/-- Characters allowed in a URL scheme (CPython scheme_chars). -/
def schemeChar (c : Char) : Bool :=
  c.isAlpha || c.isDigit || c = '+' || c = '-' || c = '.'

/-- Scheme extraction of CPython urlsplit: the text before the first colon
is a scheme when it is nonempty, starts with an ASCII letter, and consists
of scheme characters; it is lowercased.  Otherwise the URL is unchanged. -/
def splitScheme (cs : List Char) : List Char × List Char :=
  match breakAtFirst ':' cs with
  | none => ([], cs)
  | some (pre, post) =>
    match pre with
    | [] => ([], cs)
    | c0 :: rest0 =>
      if c0.isAlpha && (c0 :: rest0).all schemeChar then (lowerStr pre, post)
      else ([], cs)

/-- Delimiters ending the netloc component (CPython splitnetloc). -/
def netlocDelim (c : Char) : Bool :=
  c = '/' || c = '?' || c = '#'

/-- Netloc extraction of CPython urlsplit: after a leading double slash,
the netloc runs until the first slash, question mark or hash. -/
def splitNetloc (cs : List Char) : List Char × List Char :=
  match cs with
  | '/' :: '/' :: rest =>
    (rest.takeWhile (fun c => !netlocDelim c), rest.dropWhile (fun c => !netlocDelim c))
  | _ => ([], cs)

/-- Fragment split of CPython urlsplit: everything after the first hash. -/
def splitFragmentPart (cs : List Char) : List Char × List Char :=
  match breakAtFirst '#' cs with
  | none => (cs, [])
  | some (pre, post) => (pre, post)

/-- Query split of CPython urlsplit: everything after the first question
mark (the fragment having been removed already). -/
def splitQueryPart (cs : List Char) : List Char × List Char :=
  match breakAtFirst '?' cs with
  | none => (cs, [])
  | some (pre, post) => (pre, post)

/-- Params split of CPython urlparse: the part of the last path segment
after a semicolon; the path is unchanged when that segment has none. -/
def splitParamsPart (cs : List Char) : List Char × List Char :=
  match breakAtLast '/' cs with
  | some (pre, post) =>
    match breakAtFirst ';' post with
    | some (p1, p2) => (pre ++ '/' :: p1, p2)
    | none => (cs, [])
  | none =>
    match breakAtFirst ';' cs with
    | some (p1, p2) => (p1, p2)
    | none => (cs, [])

/-- Unsafe URL characters removed by CPython urlsplit before parsing. -/
def unsafeUrlChar (c : Char) : Bool :=
  c = '\t' || c = '\r' || c = '\n'

/-- Models urllib.parse.urlparse with default arguments: removes unsafe
characters, then splits scheme, netloc, fragment, query and params.
The bracketed-host validity check of newer CPython, which can only raise
for malformed IPv6 netlocs, is omitted. -/
def urlparse (url : String) : ParseResult :=
  let cs := url.data.filter (fun c => !unsafeUrlChar c)
  let sp1 := splitScheme cs
  let sp2 := splitNetloc sp1.2
  let sp3 := splitFragmentPart sp2.2
  let sp4 := splitQueryPart sp3.1
  let sp5 := splitParamsPart sp4.1
  { scheme := ⟨sp1.1⟩, netloc := ⟨sp2.1⟩, path := ⟨sp5.1⟩,
    params := ⟨sp5.2⟩, query := ⟨sp4.2⟩, fragment := ⟨sp3.2⟩ }

/-! ## Model of urllib.parse.parse_qs / parse_qsl

parse_qsl with default arguments splits the query on ampersands, skips
empty fields, fields without an equals sign and fields with an empty
value, replaces plus signs by spaces in names and values and
percent-decodes them (unquote with UTF-8 and replacement of invalid
sequences).  parse_qs groups the resulting pairs into a dict keyed by
name, each key mapping to its values in order of occurrence. -/

/-- UTF-8 encoding of one character as its byte values. -/
def utf8EncodeChar (c : Char) : List Nat :=
  let n := c.toNat
  if n < 0x80 then [n]
  else if n < 0x800 then [0xC0 + n / 64, 0x80 + n % 64]
  else if n < 0x10000 then [0xE0 + n / 4096, 0x80 + (n / 64) % 64, 0x80 + n % 64]
  else [0xF0 + n / 262144, 0x80 + (n / 4096) % 64, 0x80 + (n / 64) % 64, 0x80 + n % 64]

/-- Concatenation of byte lists. -/
def concatAll : List (List Nat) → List Nat
  | [] => []
  | x :: xs => x ++ concatAll xs

/-- Value of an ASCII hexadecimal digit byte, none otherwise. -/
def hexDigitVal (b : Nat) : Option Nat :=
  if 48 ≤ b ∧ b ≤ 57 then some (b - 48)
  else if 65 ≤ b ∧ b ≤ 70 then some (b - 55)
  else if 97 ≤ b ∧ b ≤ 102 then some (b - 87)
  else none

/-- Percent decoding on bytes: a percent byte followed by two hexadecimal
digit bytes becomes the encoded byte; any other byte passes through, as in
urllib.parse.unquote where invalid escapes are left as literal text. -/
def percentDecode : List Nat → List Nat
  | 37 :: h1 :: h2 :: rest =>
    match hexDigitVal h1, hexDigitVal h2 with
    | some a, some b => (16 * a + b) :: percentDecode rest
    | _, _ => 37 :: percentDecode (h1 :: h2 :: rest)
  | b :: rest => b :: percentDecode rest
  | [] => []

/-- Replacement character emitted for invalid UTF-8 input. -/
def replChar : Char :=
  Char.ofNat 0xFFFD

/-- Continuation byte test for UTF-8. -/
def contByte (b : Nat) : Bool :=
  0x80 ≤ b && b ≤ 0xBF

/-- First-continuation constraint of a three-byte UTF-8 sequence, which
excludes overlong encodings and surrogate code points. -/
def cont2ok (b1 b2 : Nat) : Bool :=
  if b1 = 0xE0 then 0xA0 ≤ b2 && b2 ≤ 0xBF
  else if b1 = 0xED then 0x80 ≤ b2 && b2 ≤ 0x9F
  else contByte b2

/-- First-continuation constraint of a four-byte UTF-8 sequence, which
excludes overlong encodings and code points above 0x10FFFF. -/
def cont3ok (b1 b2 : Nat) : Bool :=
  if b1 = 0xF0 then 0x90 ≤ b2 && b2 ≤ 0xBF
  else if b1 = 0xF4 then 0x80 ≤ b2 && b2 ≤ 0x8F
  else contByte b2

/-- Fuel-driven worker for decodeUtf8.  Every step consumes at least one
byte, so fuel equal to the byte count suffices; the fuel only makes the
recursion structural. -/
def decodeUtf8Fuel : Nat → List Nat → List Char
  | 0, _ => []
  | _, [] => []
  | fuel + 1, b1 :: rest =>
    if b1 < 0x80 then Char.ofNat b1 :: decodeUtf8Fuel fuel rest
    else if 0xC2 ≤ b1 && b1 ≤ 0xDF then
      match rest with
      | b2 :: rest2 =>
        if contByte b2 then
          Char.ofNat ((b1 - 0xC0) * 64 + (b2 - 0x80)) :: decodeUtf8Fuel fuel rest2
        else replChar :: decodeUtf8Fuel fuel (b2 :: rest2)
      | [] => [replChar]
    else if 0xE0 ≤ b1 && b1 ≤ 0xEF then
      match rest with
      | b2 :: b3 :: rest2 =>
        if cont2ok b1 b2 && contByte b3 then
          Char.ofNat ((b1 - 0xE0) * 4096 + (b2 - 0x80) * 64 + (b3 - 0x80))
            :: decodeUtf8Fuel fuel rest2
        else replChar :: decodeUtf8Fuel fuel (b2 :: b3 :: rest2)
      | other => replChar :: decodeUtf8Fuel fuel other
    else if 0xF0 ≤ b1 && b1 ≤ 0xF4 then
      match rest with
      | b2 :: b3 :: b4 :: rest2 =>
        if cont3ok b1 b2 && contByte b3 && contByte b4 then
          Char.ofNat ((b1 - 0xF0) * 262144 + (b2 - 0x80) * 4096 + (b3 - 0x80) * 64 + (b4 - 0x80))
            :: decodeUtf8Fuel fuel rest2
        else replChar :: decodeUtf8Fuel fuel (b2 :: b3 :: b4 :: rest2)
      | other => replChar :: decodeUtf8Fuel fuel other
    else replChar :: decodeUtf8Fuel fuel rest

/-- UTF-8 decoding with each invalid byte replaced by U+FFFD, modelling
the replace error handler used by urllib.parse.unquote. -/
def decodeUtf8 (bs : List Nat) : List Char :=
  decodeUtf8Fuel bs.length bs

/-- Models urllib.parse.unquote with UTF-8 encoding and the replace error
handler: the text is taken as bytes, percent escapes are decoded to bytes,
and the bytes are decoded back as UTF-8. -/
def unquote (s : String) : String :=
  ⟨decodeUtf8 (percentDecode (concatAll (s.data.map utf8EncodeChar)))⟩

/-- Plus-to-space replacement applied to names and values by parse_qsl. -/
def plusToSpace (s : List Char) : List Char :=
  s.map (fun c => if c = '+' then ' ' else c)

/-- Models urllib.parse.unquote_plus: plus signs become spaces, then
percent escapes are decoded. -/
def unquote_plus (s : String) : String :=
  unquote ⟨plusToSpace s.data⟩

/-- Models urllib.parse.parse_qsl with default arguments (ampersand
separator, blank values dropped, non-strict parsing): the ordered list of
decoded name-value pairs of the query string. -/
def parse_qsl (qs : String) : List (String × String) :=
  (splitAll '&' qs.data).filterMap (fun nv =>
    if nv = [] then none
    else
      match breakAtFirst '=' nv with
      | none => none
      | some (name, value) =>
        if value = [] then none
        else some (unquote_plus ⟨name⟩, unquote_plus ⟨value⟩))

/-- Value of the first pair named key, or dflt when no pair is.  Mirrors
parse_qs(qs).get(key, [dflt])[0]: the parse_qs dict maps each name to its
values in order of occurrence, so element 0 of the list returned by get is
the value of the first occurrence, and dflt when the key is absent. -/
def firstValueD (pairs : List (String × String)) (key dflt : String) : String :=
  match pairs with
  | [] => dflt
  | p :: rest => if p.1 = key then p.2 else firstValueD rest key dflt

/-- Token extraction of WebhookHandler.do_POST, line 36 of the source:
req_token = parse_qs(parsed.query).get(token, [empty])[0]. -/
def reqToken (query : String) : String :=
  firstValueD (parse_qsl query) "token" ""

/-! ## Model of the PORT computation -/

/-- Python whitespace stripped by int() around a numeral. -/
def isPySpace (c : Char) : Bool :=
  c = ' ' || c = '\t' || c = '\n' || c = '\r' || c = '\x0b' || c = '\x0c'

/-- Decimal digit run to a number; none on an empty run or a non-digit. -/
def digitsToNatAux : List Char → Nat → Option Nat
  | [], acc => some acc
  | c :: cs, acc =>
    if c.isDigit then digitsToNatAux cs (acc * 10 + (c.toNat - 48)) else none

/-- Decimal digit run to a number, requiring at least one digit. -/
def digitsToNat : List Char → Option Nat
  | [] => none
  | cs => digitsToNatAux cs 0

/-- Models int() applied to a string: surrounding whitespace is stripped,
an optional sign precedes a nonempty run of decimal digits; none models
the ValueError raised otherwise.  The underscore digit grouping accepted
by CPython is omitted. -/
def pyInt (s : String) : Option Int :=
  let t := ((s.data.dropWhile isPySpace).reverse.dropWhile isPySpace).reverse
  match t with
  | '-' :: ds => (digitsToNat ds).map (fun n => -(n : Int))
  | '+' :: ds => (digitsToNat ds).map (fun n => (n : Int))
  | ds => (digitsToNat ds).map (fun n => (n : Int))

/-- Line 21 of the source: PORT = int(sys.argv[1]) if len(sys.argv) > 1
else 9876.  The argument list includes the program name at position 0;
none models the ValueError of int() on a non-numeric argument. -/
def PORT (argv : List String) : Option Int :=
  match argv with
  | _ :: a :: _ => pyInt a
  | _ => some 9876

/-! ## HTTP request handling model (WebhookHandler)

The handler methods are translated from WebhookHandler in the source.
A handler invocation is modelled as a pure function from the request data
(method, raw request path), the module configuration (TOKEN, SYNC_SCRIPT)
and the outcome of the possible subprocess.run call, to the HTTP response
written and the list of processes spawned. -/

/-- Result of a completed subprocess.run call: return code and the
captured output streams. -/
structure SubprocessResult where
  returncode : Int
  stdout : String
  stderr : String
deriving DecidableEq

/-- Outcome of the subprocess.run call in do_POST: completes with a
result, or raises an exception (subprocess.TimeoutExpired after 120
seconds, FileNotFoundError, or any other Exception) whose text str(e)
is carried. -/
inductive RunOutcome where
  | completed (result : SubprocessResult)
  | raised (errText : String)
deriving DecidableEq

/-- JSON values occurring in the response body built by do_POST. -/
inductive Json where
  | bool (b : Bool)
  | str (s : String)
deriving DecidableEq

/-- Body of an HTTP response: plain text written with wfile.write, a JSON
object written as json.dumps of a dict (field order preserved), or the
HTML error page generated by send_error from an optional message. -/
inductive Body where
  | text (s : String)
  | jsonObj (fields : List (String × Json))
  | errorPage (message : Option String)
deriving DecidableEq

/-- HTTP response as observed by the client: status code, the
Content-Type header when one is set, and the body. -/
structure Response where
  status : Nat
  contentType : Option String
  body : Body
deriving DecidableEq

/-- Models BaseHTTPRequestHandler.send_error: the given status code with
an HTML error page holding the optional message (the default message of
the status code when none is given). -/
def send_error (code : Nat) (message : Option String) : Response :=
  { status := code, contentType := some "text/html;charset=utf-8",
    body := Body.errorPage message }

/-- One spawned external process: argument list and the keyword options
of the subprocess.run call in the source. -/
structure Spawn where
  args : List String
  captureOutput : Bool
  timeout : Nat
deriving DecidableEq

/-- The one subprocess.run call of do_POST, lines 43 to 48 of the source:
subprocess.run([SYNC_SCRIPT, sync], capture_output=True, text=True,
timeout=120). -/
def syncSpawn (SYNC_SCRIPT : String) : Spawn :=
  { args := [SYNC_SCRIPT, "sync"], captureOutput := true, timeout := 120 }

/-- Try block of do_POST, lines 42 to 59: on completion a 200 response
whose JSON body has the fields success (returncode == 0), stdout and
stderr; on a raised exception send_error(500, str(e)).  Either way the
one subprocess has been spawned. -/
def runSyncBranch (SYNC_SCRIPT : String) (outcome : RunOutcome) :
    Response × List Spawn :=
  match outcome with
  | RunOutcome.completed result =>
    ({ status := 200, contentType := some "application/json",
       body := Body.jsonObj
         [("success", Json.bool (result.returncode == 0)),
          ("stdout", Json.str result.stdout),
          ("stderr", Json.str result.stderr)] },
     [syncSpawn SYNC_SCRIPT])
  | RunOutcome.raised e => (send_error 500 (some e), [syncSpawn SYNC_SCRIPT])

/-- WebhookHandler.do_POST, lines 26 to 59 of the source: parse the raw
request path with urlparse; 404 unless the path component is /sync; when
TOKEN is configured (non-empty) and the token query parameter differs
from it, 401 without spawning anything; otherwise run the sync subprocess
and report its outcome. -/
def do_POST (TOKEN SYNC_SCRIPT path : String) (outcome : RunOutcome) :
    Response × List Spawn :=
  if (urlparse path).path ≠ "/sync" then (send_error 404 none, [])
  else if TOKEN ≠ "" ∧ reqToken (urlparse path).query ≠ TOKEN then
    (send_error 401 (some "Invalid token"), [])
  else runSyncBranch SYNC_SCRIPT outcome

/-- WebhookHandler.do_GET, lines 61 to 68 of the source: the raw request
path is compared to /health without URL parsing; on a match a 200
text/plain response with body ok, otherwise send_error(404). -/
def do_GET (path : String) : Response :=
  if path = "/health" then
    { status := 200, contentType := some "text/plain", body := Body.text "ok" }
  else send_error 404 none

/-- HTTP method of an incoming request. -/
inductive Method where
  | GET
  | POST
  | other (name : String)
deriving DecidableEq

/-- Dispatch of http.server.BaseHTTPRequestHandler.handle_one_request,
modelled from the Python standard library: a request is routed to the
do_METHOD attribute of the handler class; WebhookHandler defines only
do_GET and do_POST, so every other method is answered by
send_error(501, Unsupported method) and nothing is spawned.  GET requests
never spawn a process. -/
def handleRequest (TOKEN SYNC_SCRIPT : String) (method : Method)
    (path : String) (outcome : RunOutcome) : Response × List Spawn :=
  match method with
  | Method.GET => (do_GET path, [])
  | Method.POST => do_POST TOKEN SYNC_SCRIPT path outcome
  | Method.other _ => (send_error 501 (some "Unsupported method"), [])

/-! ## Helper lemmas -/

/-- On the sync route, do_POST reduces to the token check followed by the
try block. -/
theorem do_POST_routed (TOKEN SYNC path : String) (o : RunOutcome)
    (hp : (urlparse path).path = "/sync") :
    do_POST TOKEN SYNC path o =
      if TOKEN ≠ "" ∧ reqToken (urlparse path).query ≠ TOKEN then
        (send_error 401 (some "Invalid token"), [])
      else runSyncBranch SYNC o := by
  unfold do_POST
  rw [if_neg (fun h => h hp)]

/-- On the sync route, a request that passes the token check (no token
configured, or a matching token parameter) reaches the try block. -/
theorem do_POST_authorized (TOKEN SYNC path : String) (o : RunOutcome)
    (hp : (urlparse path).path = "/sync")
    (hauth : TOKEN = "" ∨ reqToken (urlparse path).query = TOKEN) :
    do_POST TOKEN SYNC path o = runSyncBranch SYNC o := by
  rw [do_POST_routed TOKEN SYNC path o hp, if_neg]
  intro h
  rcases h with ⟨hT, ht⟩
  rcases hauth with h1 | h2
  · exact hT h1
  · exact ht h2

/-- firstValueD returns the default when no pair carries the key. -/
theorem firstValueD_all_ne (pairs : List (String × String)) (key dflt : String)
    (h : ∀ p ∈ pairs, p.1 ≠ key) : firstValueD pairs key dflt = dflt := by
  induction pairs with
  | nil => rfl
  | cons p rest ih =>
    unfold firstValueD
    rw [if_neg (h p (List.mem_cons_self p rest))]
    exact ih (fun q hq => h q (List.mem_cons_of_mem p hq))

/-- firstValueD returns the value of the first pair carrying the key,
whatever follows it. -/
theorem firstValueD_first (pre post : List (String × String)) (key v dflt : String)
    (hpre : ∀ p ∈ pre, p.1 ≠ key) :
    firstValueD (pre ++ (key, v) :: post) key dflt = v := by
  induction pre with
  | nil => simp [firstValueD]
  | cons p rest ih =>
    rw [List.cons_append]
    unfold firstValueD
    rw [if_neg (hpre p (List.mem_cons_self p rest))]
    exact ih (fun q hq => hpre q (List.mem_cons_of_mem p hq))

/-! ## Claim theorems -/

/-- C1: for every POST request to /sync, if the configured secret token is
non-empty and the token query parameter of the request (the empty string
when missing) does not exactly equal the secret, the server responds 401
and spawns no external process. -/
theorem sync_wrong_token_401 (TOKEN SYNC path : String) (o : RunOutcome)
    (hT : TOKEN ≠ "") (hp : (urlparse path).path = "/sync")
    (ht : reqToken (urlparse path).query ≠ TOKEN) :
    (do_POST TOKEN SYNC path o).1 = send_error 401 (some "Invalid token") ∧
    (do_POST TOKEN SYNC path o).2 = [] := by
  rw [do_POST_routed TOKEN SYNC path o hp, if_pos ⟨hT, ht⟩]
  exact ⟨rfl, rfl⟩

/-- Witness for C1 at token abc and request path /sync?token=bad. -/
theorem sync_wrong_token_401_witness :
    (do_POST "abc" "sync.sh" "/sync?token=bad"
      (RunOutcome.completed ⟨0, "", ""⟩)).1 = send_error 401 (some "Invalid token") ∧
    (do_POST "abc" "sync.sh" "/sync?token=bad"
      (RunOutcome.completed ⟨0, "", ""⟩)).2 = [] :=
  sync_wrong_token_401 "abc" "sync.sh" "/sync?token=bad"
    (RunOutcome.completed ⟨0, "", ""⟩) (by decide) (by decide) (by decide)

/-- C2: for every authorized POST request to /sync whose subprocess call
completes within the timeout, the server responds 200 with a JSON body
holding exactly the three fields success, stdout and stderr, success being
returncode == 0, and the 200 status holds whatever the exit code is. -/
theorem sync_completed_200_json (TOKEN SYNC path : String) (r : SubprocessResult)
    (hp : (urlparse path).path = "/sync")
    (hauth : TOKEN = "" ∨ reqToken (urlparse path).query = TOKEN) :
    (do_POST TOKEN SYNC path (RunOutcome.completed r)).1 =
      { status := 200, contentType := some "application/json",
        body := Body.jsonObj
          [("success", Json.bool (r.returncode == 0)),
           ("stdout", Json.str r.stdout),
           ("stderr", Json.str r.stderr)] } := by
  rw [do_POST_authorized TOKEN SYNC path (RunOutcome.completed r) hp hauth]
  rfl

/-- Witness for C2 with no token configured and a failing exit code 7. -/
theorem sync_completed_200_json_witness :
    (do_POST "" "sync.sh" "/sync" (RunOutcome.completed ⟨7, "out", "err"⟩)).1 =
      { status := 200, contentType := some "application/json",
        body := Body.jsonObj
          [("success", Json.bool false),
           ("stdout", Json.str "out"),
           ("stderr", Json.str "err")] } :=
  sync_completed_200_json "" "sync.sh" "/sync" ⟨7, "out", "err"⟩ rfl (Or.inl rfl)

/-- C3: for every authorized POST request to /sync whose subprocess call
raises (timeout after 120 seconds or any other invocation error), the
server responds 500 with the text of the error as the message. -/
theorem sync_raised_500 (TOKEN SYNC path e : String)
    (hp : (urlparse path).path = "/sync")
    (hauth : TOKEN = "" ∨ reqToken (urlparse path).query = TOKEN) :
    (do_POST TOKEN SYNC path (RunOutcome.raised e)).1 = send_error 500 (some e) := by
  rw [do_POST_authorized TOKEN SYNC path (RunOutcome.raised e) hp hauth]
  rfl

/-- Witness for C3 at a matching token and a timeout error text. -/
theorem sync_raised_500_witness :
    (do_POST "abc" "sync.sh" "/sync?token=abc"
      (RunOutcome.raised "timed out after 120 seconds")).1 =
      send_error 500 (some "timed out after 120 seconds") :=
  sync_raised_500 "abc" "sync.sh" "/sync?token=abc" "timed out after 120 seconds"
    (by decide) (Or.inr (by decide))

/-- C6: when the configured secret token is the empty string,
authentication is disabled: every POST request to /sync spawns the sync
subprocess whatever the token query parameter holds, and the response is
never 401. -/
theorem empty_token_auth_disabled (SYNC path : String) (o : RunOutcome)
    (hp : (urlparse path).path = "/sync") :
    (do_POST "" SYNC path o).2 = [syncSpawn SYNC] ∧
    (do_POST "" SYNC path o).1.status ≠ 401 := by
  rw [do_POST_authorized "" SYNC path o hp (Or.inl rfl)]
  cases o with
  | completed r => exact ⟨rfl, show (200 : Nat) ≠ 401 by decide⟩
  | raised e => exact ⟨rfl, show (500 : Nat) ≠ 401 by decide⟩

/-- Witness for C6 at a request path carrying an arbitrary token value. -/
theorem empty_token_auth_disabled_witness :
    (do_POST "" "sync.sh" "/sync?token=whatever"
      (RunOutcome.completed ⟨0, "", ""⟩)).2 = [syncSpawn "sync.sh"] ∧
    (do_POST "" "sync.sh" "/sync?token=whatever"
      (RunOutcome.completed ⟨0, "", ""⟩)).1.status ≠ 401 :=
  empty_token_auth_disabled "sync.sh" "/sync?token=whatever"
    (RunOutcome.completed ⟨0, "", ""⟩) (by decide)

/-- C7: every authorized POST request to /sync spawns exactly one external
process, with argument list the sync script path followed by sync, and
with output capture on. -/
theorem sync_single_spawn (TOKEN SYNC path : String) (o : RunOutcome)
    (hp : (urlparse path).path = "/sync")
    (hauth : TOKEN = "" ∨ reqToken (urlparse path).query = TOKEN) :
    (do_POST TOKEN SYNC path o).2 =
      [{ args := [SYNC, "sync"], captureOutput := true, timeout := 120 }] := by
  rw [do_POST_authorized TOKEN SYNC path o hp hauth]
  cases o with
  | completed r => rfl
  | raised e => rfl

/-- Witness for C7 at a matching token. -/
theorem sync_single_spawn_witness :
    (do_POST "abc" "sync.sh" "/sync?token=abc"
      (RunOutcome.completed ⟨0, "", ""⟩)).2 =
      [{ args := ["sync.sh", "sync"], captureOutput := true, timeout := 120 }] :=
  sync_single_spawn "abc" "sync.sh" "/sync?token=abc"
    (RunOutcome.completed ⟨0, "", ""⟩) (by decide) (Or.inr (by decide))

/-- C4 counterexample: a PUT request, whose path/method combination is
neither GET /health nor POST /sync, is answered 501 by the base handler
dispatch, not 404 as the claim states. -/
theorem other_method_counterexample :
    (handleRequest "" "sync.sh" (Method.other "PUT") "/nowhere"
      (RunOutcome.completed ⟨0, "", ""⟩)).1.status = 501 ∧
    ¬ (handleRequest "" "sync.sh" (Method.other "PUT") "/nowhere"
      (RunOutcome.completed ⟨0, "", ""⟩)).1.status = 404 := by
  exact ⟨rfl, by decide⟩

/-- C4 amended: a GET request whose raw path is not /health is answered
404; a POST request whose parsed path component is not /sync is answered
404; a request with any other HTTP method is answered 501 (Unsupported
method) by the base handler dispatch, not 404. -/
theorem routing_amended (TOKEN SYNC path : String) (o : RunOutcome) (m : Method) :
    (m = Method.GET → path ≠ "/health" →
      (handleRequest TOKEN SYNC m path o).1.status = 404) ∧
    (m = Method.POST → (urlparse path).path ≠ "/sync" →
      (handleRequest TOKEN SYNC m path o).1.status = 404) ∧
    (∀ name, m = Method.other name →
      (handleRequest TOKEN SYNC m path o).1.status = 501) := by
  refine ⟨?_, ?_, ?_⟩
  · intro hm hpath
    subst hm
    show (do_GET path).status = 404
    unfold do_GET
    rw [if_neg hpath]
    rfl
  · intro hm hpath
    subst hm
    show (do_POST TOKEN SYNC path o).1.status = 404
    unfold do_POST
    rw [if_pos hpath]
    rfl
  · intro name hm
    subst hm
    rfl

/-- Witness for the C4 amended theorem: GET of an unknown path is 404 and
POST of an unknown path is 404. -/
theorem routing_amended_witness :
    (handleRequest "" "sync.sh" Method.GET "/nope"
      (RunOutcome.completed ⟨0, "", ""⟩)).1.status = 404 :=
  (routing_amended "" "sync.sh" "/nope" (RunOutcome.completed ⟨0, "", ""⟩)
    Method.GET).1 rfl (by decide)

/-- C5 counterexample: a GET request whose URL path component is /health
but which carries a query string is answered 404, not 200, because do_GET
compares the raw request path against /health without URL parsing. -/
theorem health_query_counterexample :
    (urlparse "/health?x=1").path = "/health" ∧
    (handleRequest "" "sync.sh" Method.GET "/health?x=1"
      (RunOutcome.completed ⟨0, "", ""⟩)).1.status = 404 ∧
    ¬ (handleRequest "" "sync.sh" Method.GET "/health?x=1"
      (RunOutcome.completed ⟨0, "", ""⟩)).1.status = 200 := by
  refine ⟨by decide, ?_, ?_⟩
  · show (do_GET "/health?x=1").status = 404
    decide
  · show ¬ (do_GET "/health?x=1").status = 200
    decide

/-- C5 amended: a GET request whose raw request path is exactly /health
(hence with no query string) is answered 200 with content type text/plain
and body ok, and spawns nothing; a GET request whose raw path is anything
else, including /health followed by a query string, is answered 404. -/
theorem health_exact_path (TOKEN SYNC path : String) (o : RunOutcome) :
    (path = "/health" →
      handleRequest TOKEN SYNC Method.GET path o =
        ({ status := 200, contentType := some "text/plain",
           body := Body.text "ok" }, [])) ∧
    (path ≠ "/health" →
      (handleRequest TOKEN SYNC Method.GET path o).1.status = 404) := by
  constructor
  · intro hpath
    subst hpath
    rfl
  · intro hpath
    show (do_GET path).status = 404
    unfold do_GET
    rw [if_neg hpath]
    rfl

/-- Witness for the C5 amended theorem at the exact /health path. -/
theorem health_exact_path_witness :
    handleRequest "" "sync.sh" Method.GET "/health"
      (RunOutcome.completed ⟨0, "", ""⟩) =
      ({ status := 200, contentType := some "text/plain",
         body := Body.text "ok" }, []) :=
  (health_exact_path "" "sync.sh" "/health"
    (RunOutcome.completed ⟨0, "", ""⟩)).1 rfl

/-- C8: the listen port is the first positional command-line argument
when one is given (converted by int), and 9876 when none is given. -/
theorem port_from_argv (prog a : String) (rest : List String) :
    PORT (prog :: a :: rest) = pyInt a ∧
    PORT [prog] = some 9876 ∧
    PORT (prog :: "8080" :: rest) = some 8080 := by
  refine ⟨rfl, rfl, ?_⟩
  show pyInt "8080" = some 8080
  decide

/-- C9: in the query string of a POST /sync request, only the value of
the first token parameter is compared (later occurrences are ignored),
and when no token parameter is present the compared value is the empty
string. -/
theorem token_first_value (query : String) :
    ((∀ p ∈ parse_qsl query, p.1 ≠ "token") → reqToken query = "") ∧
    (∀ pre v post, parse_qsl query = pre ++ ("token", v) :: post →
      (∀ p ∈ pre, p.1 ≠ "token") → reqToken query = v) := by
  constructor
  · intro h
    unfold reqToken
    exact firstValueD_all_ne (parse_qsl query) "token" "" h
  · intro pre v post heq hpre
    unfold reqToken
    rw [heq]
    exact firstValueD_first pre post "token" v "" hpre

/-- Witness for C9: with two token parameters the first value wins. -/
theorem token_first_value_witness :
    reqToken "token=a&token=b" = "a" :=
  (token_first_value "token=a&token=b").2 [] "a" [("token", "b")]
    (by decide) (by intro p hp; cases hp)

/-- C10: the POST handler is total with respect to the sync invocation:
whatever the outcome of the subprocess call, the handler produces exactly
one response, whose status is 404, 401, 200 or 500; in particular every
raised exception on the authorized sync route becomes the 500 response
and propagates no further. -/
theorem post_handler_total (TOKEN SYNC path : String) (o : RunOutcome) :
    ((do_POST TOKEN SYNC path o).1.status = 404 ∨
     (do_POST TOKEN SYNC path o).1.status = 401 ∨
     (do_POST TOKEN SYNC path o).1.status = 200 ∨
     (do_POST TOKEN SYNC path o).1.status = 500) ∧
    (∀ e, o = RunOutcome.raised e → (urlparse path).path = "/sync" →
      (TOKEN = "" ∨ reqToken (urlparse path).query = TOKEN) →
      do_POST TOKEN SYNC path o = (send_error 500 (some e), [syncSpawn SYNC])) := by
  constructor
  · unfold do_POST
    by_cases hroute : (urlparse path).path ≠ "/sync"
    · rw [if_pos hroute]
      exact Or.inl rfl
    · rw [if_neg hroute]
      by_cases hauth : TOKEN ≠ "" ∧ reqToken (urlparse path).query ≠ TOKEN
      · rw [if_pos hauth]
        exact Or.inr (Or.inl rfl)
      · rw [if_neg hauth]
        cases o with
        | completed r => exact Or.inr (Or.inr (Or.inl rfl))
        | raised e => exact Or.inr (Or.inr (Or.inr rfl))
  · intro e ho hp hauth
    subst ho
    rw [do_POST_authorized TOKEN SYNC path (RunOutcome.raised e) hp hauth]
    rfl

/-- Witness for C10: a raised exception on the authorized sync route is
observed as the 500 response with the exception text. -/
theorem post_handler_total_witness :
    do_POST "" "sync.sh" "/sync" (RunOutcome.raised "boom") =
      (send_error 500 (some "boom"), [syncSpawn "sync.sh"]) :=
  (post_handler_total "" "sync.sh" "/sync" (RunOutcome.raised "boom")).2
    "boom" rfl (by decide) (Or.inl rfl)

end GastownWebhook
